import Mathlib

/-!
Shallow embedding of the gold-analyzer-bot webhook (src/bot.py) and proofs about it.

Modelling conventions:
- Python strings are Lean `String`s; the Python string operations used by the code
  (`str.split()`, `str.strip()`, `str.startswith`, `int(...)`) are re-implemented
  below over `List Char` so that they compute by kernel reduction.
- The in-memory set `active_users` is a `List Int` with set semantics
  (`insertUser` / `discardUser` mirror `set.add` / `set.discard`).
- The images directory is a `List FileRec`; the on-disk name of a file
  `images/{chat_id}_{int(time.time())}.jpg` is determined by `(chatId, tsSec)`,
  so the glob `{chat_id}_*.jpg` is the filter on the `chatId` field, and writing
  a file whose name already exists overwrites it (`putFile`).
- External effects of one webhook invocation are returned explicitly in
  `HandlerResult`: outbound Telegram messages (`msgs`, in send order), background
  analysis threads started (`dispatches`, as `(chat_id, image_path)`), and calls
  to `save_active_users` (`saves`, the persisted snapshots).
- Nondeterministic inputs of one invocation (the clock, the Telegram `getFile`
  answer, the downloaded bytes and whether/where the chunked write fails) are
  bundled in `Env`.
- The Azure OpenAI response body is a `Json` value; the exception-based control
  flow of `azure_chat_completion` is an `Except Unit` computation whose `error`
  is caught by the surrounding `try/except` (returning Python `None`, i.e. `none`).
- `tg_send_message` is modelled as never raising (it swallows HTTP status errors
  itself); transport failures of the messaging sink are outside the model.
-/

/-- Single-quote character, used by the model of Python `str()`/`repr()`. -/
def quo : String := String.mk [Char.ofNat 39]

/-- Does the first list occur as a leading segment of the second list? -/
def takesLead : List Char → List Char → Bool
  | [], _ => true
  | _ :: _, [] => false
  | a :: as, b :: bs => a == b && takesLead as bs

/-- Python `s.startswith(p)`. -/
def pyStartsWith (s p : String) : Bool :=
  takesLead p.toList s.toList

/-- Does the first list occur contiguously anywhere inside the second list? -/
def occursIn (p : List Char) : List Char → Bool
  | [] => takesLead p []
  | c :: rest => takesLead p (c :: rest) || occursIn p rest

/-- Python `s.strip()`: remove leading and trailing whitespace. -/
def pyStrip (s : String) : String :=
  String.mk (((s.toList.dropWhile Char.isWhitespace).reverse.dropWhile Char.isWhitespace).reverse)

/-- Helper of `pySplit`: accumulate the current word (reversed) while scanning. -/
def splitWsAux : List Char → List Char → List String
  | [], acc => if acc.isEmpty then [] else [String.mk acc.reverse]
  | c :: rest, acc =>
      if c.isWhitespace then
        if acc.isEmpty then splitWsAux rest [] else String.mk acc.reverse :: splitWsAux rest []
      else splitWsAux rest (c :: acc)

/-- Python `s.split()` with no separator: split on whitespace runs, no empty pieces. -/
def pySplit (s : String) : List String :=
  splitWsAux s.toList []

/-- Valid continuation of a Python integer literal after a digit: further digits,
with single underscores allowed only between digits. -/
def pyDigitsAux : List Char → Bool
  | [] => true
  | '_' :: rest =>
      match rest with
      | c :: rest2 => c.isDigit && pyDigitsAux rest2
      | [] => false
  | c :: rest => c.isDigit && pyDigitsAux rest

/-- Valid digit part of a Python integer literal: nonempty, starts with a digit. -/
def pyDigitsOk : List Char → Bool
  | [] => false
  | c :: rest => c.isDigit && pyDigitsAux rest

/-- Numeric value of a list of decimal digits (underscores already removed). -/
def digitsToNat (cs : List Char) : Nat :=
  cs.foldl (fun a c => a * 10 + (c.toNat - 48)) 0

/-- Python `int(token)` on a whitespace-free token (as produced by `str.split()`):
an optional sign followed by decimal digits with single underscores between digits;
anything else raises `ValueError`, modelled as `none`. (Non-ASCII digits and the
surrounding-whitespace tolerance of `int`, which `split()` has already removed,
are not modelled.) -/
def pyParseInt (s : String) : Option Int :=
  match s.toList with
  | '+' :: body =>
      if pyDigitsOk body then some ((digitsToNat (body.filter (fun c => c != '_')) : Nat) : Int)
      else none
  | '-' :: body =>
      if pyDigitsOk body then some (-((digitsToNat (body.filter (fun c => c != '_')) : Nat) : Int))
      else none
  | body =>
      if pyDigitsOk body then some ((digitsToNat (body.filter (fun c => c != '_')) : Nat) : Int)
      else none

/-- Parsed JSON value, the shape of an Azure OpenAI response body. -/
inductive Json where
  | null : Json
  | str : String → Json
  | num : Int → Json
  | arr : List Json → Json
  | obj : List (String × Json) → Json

mutual

/-- Python `repr` of a parsed-JSON value (string escaping inside `repr` of a
string is not modelled; none of the strings in play need it). -/
def pyRepr : Json → String
  | .null => "None"
  | .str s => quo ++ s ++ quo
  | .num n => toString n
  | .arr xs => "[" ++ pyReprItems xs ++ "]"
  | .obj kvs => "\x7b" ++ pyReprFields kvs ++ "\x7d"

/-- Comma-separated `repr`s of the elements of a Python list. -/
def pyReprItems : List Json → String
  | [] => ""
  | [x] => pyRepr x
  | x :: y :: rest => pyRepr x ++ ", " ++ pyReprItems (y :: rest)

/-- Comma-separated `repr`ed key-value pairs of a Python dict. -/
def pyReprFields : List (String × Json) → String
  | [] => ""
  | [kv] => quo ++ kv.1 ++ quo ++ ": " ++ pyRepr kv.2
  | kv :: kv2 :: rest =>
      quo ++ kv.1 ++ quo ++ ": " ++ pyRepr kv.2 ++ ", " ++ pyReprFields (kv2 :: rest)

end

/-- Python `str(j)`: like `repr` except a top-level string is returned as is. -/
def pyStr (j : Json) : String :=
  match j with
  | .str s => s
  | _ => pyRepr j

/-- Python `k in j` for a string `k`: key test on a dict, element test on a list,
substring test on a string; `TypeError` (modelled as `error`) on a number or `None`. -/
def pyContains (k : String) (j : Json) : Except Unit Bool :=
  match j with
  | .obj kvs => .ok (kvs.any (fun kv => kv.1 == k))
  | .arr xs => .ok (xs.any (fun x => match x with | .str s => s == k | _ => false))
  | .str s => .ok (occursIn k.toList s.toList)
  | _ => .error ()

/-- Python `j[k]` for a string key `k`: dict lookup (`KeyError` if absent);
`TypeError` on every other shape. -/
def pyIndexKey (k : String) (j : Json) : Except Unit Json :=
  match j with
  | .obj kvs =>
      match kvs.find? (fun kv => kv.1 == k) with
      | some kv => .ok kv.2
      | none => .error ()
  | _ => .error ()

/-- Python `len(j)`: defined on strings, lists and dicts; `TypeError` otherwise. -/
def pyLen (j : Json) : Except Unit Nat :=
  match j with
  | .str s => .ok s.length
  | .arr xs => .ok xs.length
  | .obj kvs => .ok kvs.length
  | _ => .error ()

/-- Python `j[0]`: first element of a list (`IndexError` if empty), one-character
string for a string; `KeyError`/`TypeError` otherwise (a dict in this model has
string keys, so an integer index always raises). -/
def pyIndexZero (j : Json) : Except Unit Json :=
  match j with
  | .arr (x :: _) => .ok x
  | .arr [] => .error ()
  | .str s =>
      match s.toList with
      | c :: _ => .ok (.str (String.mk [c]))
      | [] => .error ()
  | _ => .error ()

/-- Python `j.get(k)` on a dict, returning Python `None` (here `none`) when the
key is absent; `AttributeError` on every non-dict shape. -/
def pyGet (k : String) (j : Json) : Except Unit (Option Json) :=
  match j with
  | .obj kvs => .ok ((kvs.find? (fun kv => kv.1 == k)).map (fun kv => kv.2))
  | _ => .error ()

/-- Response-shape probing of `azure_chat_completion` (bot.py lines 109-116):
`if "choices" in j and len(j["choices"])>0 and "message" in j["choices"][0]:
text = j["choices"][0]["message"].get("content"); elif ... "text" in j["choices"][0]:
text = j["choices"][0].get("text"); else: text = str(j)`. An `error` is an
exception reaching the surrounding `try/except`. -/
def azureExtractText (j : Json) : Except Unit (Option Json) := do
  let c ← pyContains "choices" j
  if c then
    let ch ← pyIndexKey "choices" j
    let n ← pyLen ch
    if n > 0 then
      let ch0 ← pyIndexZero ch
      let hm ← pyContains "message" ch0
      if hm then
        let msg ← pyIndexKey "message" ch0
        pyGet "content" msg
      else
        let ht ← pyContains "text" ch0
        if ht then pyGet "text" ch0
        else pure (some (.str (pyStr j)))
    else pure (some (.str (pyStr j)))
  else pure (some (.str (pyStr j)))

/-- Outcome of the HTTP POST to Azure: the network/HTTP layer raised (connection
error, non-success status via `raise_for_status`, or a body `.json()` cannot
parse), or a parsed JSON body was obtained. -/
inductive AzureCall where
  | netFail : AzureCall
  | ok : Json → AzureCall

/-- Model of `azure_chat_completion` (bot.py lines 91-119): on any exception the
`except` clause returns Python `None`; otherwise the extracted `text` value,
itself possibly Python `None` when `.get` finds no `content`/`text` key. -/
def azure_chat_completion (call : AzureCall) : Option Json :=
  match call with
  | .netFail => none
  | .ok j =>
      match azureExtractText j with
      | .error _ => none
      | .ok t => t

/-- Python truthiness test `if not result:` on the value returned by
`azure_chat_completion` (with `none` standing for Python `None`). -/
def pyFalsy (j : Json) : Bool :=
  match j with
  | .null => true
  | .str s => s == ""
  | .num n => n == 0
  | .arr xs => xs.isEmpty
  | .obj kvs => kvs.isEmpty

/-- Fallback text sent when `azure_chat_completion` returned a falsy value
(bot.py line 147). -/
def azureFailMsg : String :=
  "Sorry, analysis failed — the server couldn" ++ quo ++ "t reach the model. Contact admin."

/-- Model of `analyze_image_worker` (bot.py lines 122-153): one Azure call, then
exactly one `tg_send_message` with either the live result or the fallback text.
The `image_path` argument only feeds the prompt, which does not influence the
modelled control flow. -/
def analyze_image_worker (chatId : Int) (imagePath : String) (call : AzureCall) :
    List (Int × Json) :=
  let result := azure_chat_completion call
  match result with
  | none => [(chatId, Json.str azureFailMsg)]
  | some r => if pyFalsy r then [(chatId, Json.str azureFailMsg)] else [(chatId, r)]

/-- One stored image file: `images/{chatId}_{tsSec}.jpg` with its mtime and
(partial or complete) downloaded content. -/
structure FileRec where
  chatId : Int
  tsSec : Nat
  mtime : Nat
  content : List Nat
  deriving DecidableEq

/-- Mutable process state of bot.py: the `active_users` set and the images directory. -/
structure BotState where
  activeUsers : List Int
  files : List FileRec
  deriving DecidableEq

/-- How far the photo download/write of one photo event gets:
`failsBeforeWrite` — `requests.get`, `raise_for_status` or `open` raises, no file
is created; `writeFails k` — the file was opened (created/truncated) and the
first `k` chunks were written before a write raised; `ok` — all chunks written. -/
inductive DownloadOutcome where
  | failsBeforeWrite : DownloadOutcome
  | writeFails : Nat → DownloadOutcome
  | ok : DownloadOutcome
  deriving DecidableEq

/-- Nondeterministic inputs of one webhook invocation: the clock in milliseconds
(`int(time.time())` is `nowMs / 1000`), the mtime given to a file written now,
the `file_path` field of the Telegram `getFile` answer, the downloaded chunks,
and where (if anywhere) the download fails. -/
structure Env where
  nowMs : Nat
  mtime : Nat
  getFilePath : Option String
  chunks : List Nat
  outcome : DownloadOutcome

/-- One inbound Telegram message, as read by `telegram_webhook`. -/
structure Msg where
  chatId : Int
  fromId : Option Int
  text : String
  photo : Bool
  username : Option String

/-- Observable result of one webhook invocation: the new process state, the
outbound messages in send order, the background analysis threads started
(`(chat_id, image_path)` pairs) and the snapshots passed to `save_active_users`. -/
structure HandlerResult where
  state : BotState
  msgs : List (Int × String)
  dispatches : List (Int × String)
  saves : List (List Int)
  deriving DecidableEq

/-- Default value of the `ADMIN_USERNAME` environment variable. -/
def ADMIN_USERNAME : String := "@admin"

/-- Python `set.add` on the `active_users` list-with-set-semantics. -/
def insertUser (l : List Int) (u : Int) : List Int :=
  if l.contains u then l else l ++ [u]

/-- Python `set.discard` on the `active_users` list-with-set-semantics. -/
def discardUser (l : List Int) (u : Int) : List Int :=
  l.filter (fun x => x != u)

/-- Python `message.get("from",{}).get("id") not in admins` is the negation of
this (a missing `from` id is Python `None`, which is in no set of ints). -/
def optMemB (x : Option Int) (l : List Int) : Bool :=
  match x with
  | some i => l.contains i
  | none => false

/-- Membership test `chat_id in active_users`, the activation check of bot.py. -/
def isActive (s : BotState) (u : Int) : Bool :=
  s.activeUsers.contains u

/-- String form `str(local_filename)` of the path of a stored file. -/
def filePath (f : FileRec) : String :=
  "images/" ++ toString f.chatId ++ "_" ++ toString f.tsSec ++ ".jpg"

/-- Effect of `open(local_filename, "wb")` plus writing: a file whose name —
i.e. whose `(chatId, tsSec)` pair — already exists is truncated and replaced. -/
def putFile (files : List FileRec) (f : FileRec) : List FileRec :=
  files.filter (fun g => !(g.chatId == f.chatId && g.tsSec == f.tsSec)) ++ [f]

/-- Model of `sorted(files, key=mtime, reverse=True)[0]`: the first listed file
of maximal mtime, or `none` for an empty list. -/
def latestFile : List FileRec → Option FileRec
  | [] => none
  | f :: rest => some (rest.foldl (fun acc g => if g.mtime > acc.mtime then g else acc) f)

/-- Denial sent to a non-admin caller of `/activate`. -/
def activateDeniedMsg : String := "Only admin can activate users."

/-- Usage hint for `/activate` without an argument. -/
def usageActivateMsg : String := "Usage: /activate <chat_id>"

/-- Reply when the `/activate` or `/deactivate` argument fails `int(...)`. -/
def invalidChatIdMsg : String := "Invalid chat id."

/-- Denial sent to a non-admin caller of `/deactivate`. -/
def deactivateDeniedMsg : String := "Only admin can deactivate users."

/-- Usage hint for `/deactivate` without an argument. -/
def usageDeactivateMsg : String := "Usage: /deactivate <chat_id>"

/-- Denial sent to a non-admin caller of `/list_active`. -/
def listDeniedMsg : String := "Only admin can list active users."

/-- Reply to `/list_active` when no user is active. -/
def noActiveMsg : String := "No active users."

/-- Gate message sent to an inactive user. -/
def inactiveMsg : String := "Your access is inactive. Contact admin: " ++ ADMIN_USERNAME

/-- Reply to `/analyze` when the user has no stored screenshot. -/
def noScreenshotMsg : String := "No screenshot found. Please upload your screenshot first."

/-- Progress message of the `/analyze` branch (bot.py line 241). -/
def processingMsg : String :=
  "Processing your screenshot — I" ++ quo ++ "ll send results here when ready."

/-- First acknowledgement of a saved photo (bot.py line 266). -/
def savedMsg : String :=
  "📸 Screenshot saved! Processing will continue in background — you will receive results here shortly."

/-- Second acknowledgement of a saved photo (bot.py line 267). -/
def savedProcessingMsg : String :=
  "🔎 Processing your screenshot — I" ++ quo ++ "ll send results here when ready."

/-- Notice appended for an inactive uploader (bot.py line 273). -/
def savedInactiveMsg : String :=
  "✅ Screenshot saved! Use /analyze to run analysis (if active).\nYour access is inactive. Contact admin: "
    ++ ADMIN_USERNAME

/-- Reply when the Telegram `getFile` call gives no `file_path`. -/
def getFileFailMsg : String := "Failed to get file from Telegram."

/-- Reply when downloading or writing the photo raises. -/
def downloadFailMsg : String := "Failed to download the photo. Try again."

/-- Fallback help text for unrecognized text from an active user. -/
def helpMsg : String :=
  "Send a screenshot of the chart, then /analyze. Or if you need help, use /start."

/-- Model of one invocation of `telegram_webhook` (bot.py lines 164-289), with
the branches in source order. -/
def handleUpdate (admins : List Int) (env : Env) (s : BotState) (m : Msg) : HandlerResult :=
  let cid := m.chatId
  if (m.text != "") && pyStartsWith (pyStrip m.text) "/start" then
    ⟨s, [(cid, "Welcome " ++ m.username.getD "" ++
      "!\nUpload your chart screenshot and then send /analyze (if you are active).\nIf your access is inactive, message admin: "
      ++ ADMIN_USERNAME)], [], []⟩
  else if (m.text != "") && pyStartsWith m.text "/activate" then
    if !(admins.contains cid) && !(optMemB m.fromId admins) then
      ⟨s, [(cid, activateDeniedMsg)], [], []⟩
    else
      match pySplit m.text with
      | _ :: w :: _ =>
        (match pyParseInt w with
        | some target =>
            let na := insertUser s.activeUsers target
            ⟨{ s with activeUsers := na }, [(cid, "Activated " ++ toString target)], [], [na]⟩
        | none => ⟨s, [(cid, invalidChatIdMsg)], [], []⟩)
      | _ => ⟨s, [(cid, usageActivateMsg)], [], []⟩
  else if (m.text != "") && pyStartsWith m.text "/deactivate" then
    if !(admins.contains cid) && !(optMemB m.fromId admins) then
      ⟨s, [(cid, deactivateDeniedMsg)], [], []⟩
    else
      match pySplit m.text with
      | _ :: w :: _ =>
        (match pyParseInt w with
        | some target =>
            let na := discardUser s.activeUsers target
            ⟨{ s with activeUsers := na }, [(cid, "Deactivated " ++ toString target)], [], [na]⟩
        | none => ⟨s, [(cid, invalidChatIdMsg)], [], []⟩)
      | _ => ⟨s, [(cid, usageDeactivateMsg)], [], []⟩
  else if (m.text != "") && pyStartsWith m.text "/list_active" then
    if !(admins.contains cid) && !(optMemB m.fromId admins) then
      ⟨s, [(cid, listDeniedMsg)], [], []⟩
    else if s.activeUsers.isEmpty then
      ⟨s, [(cid, noActiveMsg)], [], []⟩
    else
      ⟨s, [(cid, "Active users:\n" ++ String.intercalate "\n" (s.activeUsers.map toString))], [], []⟩
  else if (m.text != "") && pyStartsWith (pyStrip m.text) "/analyze" then
    if !(s.activeUsers.contains cid) then
      ⟨s, [(cid, inactiveMsg)], [], []⟩
    else
      match latestFile (s.files.filter (fun f => f.chatId == cid)) with
      | none => ⟨s, [(cid, noScreenshotMsg)], [], []⟩
      | some f => ⟨s, [(cid, processingMsg)], [(cid, filePath f)], []⟩
  else if m.photo then
    match env.getFilePath with
    | none => ⟨s, [(cid, getFileFailMsg)], [], []⟩
    | some _ =>
      match env.outcome with
      | .failsBeforeWrite => ⟨s, [(cid, downloadFailMsg)], [], []⟩
      | .writeFails k =>
          let f : FileRec := ⟨cid, env.nowMs / 1000, env.mtime, env.chunks.take k⟩
          ⟨{ s with files := putFile s.files f }, [(cid, downloadFailMsg)], [], []⟩
      | .ok =>
          let f : FileRec := ⟨cid, env.nowMs / 1000, env.mtime, env.chunks⟩
          let s2 := { s with files := putFile s.files f }
          if s.activeUsers.contains cid then
            ⟨s2, [(cid, savedMsg), (cid, savedProcessingMsg)], [(cid, filePath f)], []⟩
          else
            ⟨s2, [(cid, savedMsg), (cid, savedProcessingMsg), (cid, savedInactiveMsg)], [], []⟩
  else if m.text != "" then
    if s.activeUsers.contains cid then
      ⟨s, [(cid, helpMsg)], [], []⟩
    else
      ⟨s, [(cid, inactiveMsg)], [], []⟩
  else
    ⟨s, [], [], []⟩


/-- Convenience: an `Env` for invocations whose branch reads no download data. -/
def env0 : Env := ⟨0, 0, none, [], DownloadOutcome.ok⟩

/-- Adding a user to the active set makes it a member. -/
theorem mem_insertUser (l : List Int) (u : Int) : u ∈ insertUser l u := by
  unfold insertUser
  cases hc : l.contains u with
  | true => simpa using hc
  | false => simp

/-- Discarding a user from the active set removes it. -/
theorem not_mem_discardUser (l : List Int) (u : Int) : u ∉ discardUser l u := by
  simp [discardUser]

/-- C4: for every analysis dispatch, whatever the provider call does (raises,
non-success status, unparseable body, or any parsed body shape), the worker
completes and sends exactly one terminal message — the fallback text or a
truthy live result — never zero messages and never more than one. -/
theorem worker_sends_exactly_one (chatId : Int) (path : String) (call : AzureCall) :
    (analyze_image_worker chatId path call).length = 1
    ∧ (analyze_image_worker chatId path call = [(chatId, Json.str azureFailMsg)]
       ∨ ∃ r, azure_chat_completion call = some r ∧ pyFalsy r = false
           ∧ analyze_image_worker chatId path call = [(chatId, r)]) := by
  unfold analyze_image_worker
  cases h : azure_chat_completion call with
  | none => simp
  | some r =>
      cases hf : pyFalsy r with
      | true => simp [hf]
      | false => exact ⟨by simp [hf], Or.inr ⟨r, rfl, hf, by simp [hf]⟩⟩

/-- C5: a caller in no admin set (neither by chat id nor by sender id) who issues
`/activate`, `/deactivate` or `/list_active` leaves the state unchanged, persists
nothing, dispatches nothing, and receives exactly the matching denial message. -/
theorem nonadmin_commands_denied
    (admins : List Int) (env : Env) (s : BotState) (m : Msg)
    (hc : m.chatId ∉ admins)
    (hf : optMemB m.fromId admins = false)
    (ht : (m.text != "") = true)
    (hs1 : pyStartsWith (pyStrip m.text) "/start" = false) :
    (pyStartsWith m.text "/activate" = true →
      handleUpdate admins env s m = ⟨s, [(m.chatId, activateDeniedMsg)], [], []⟩)
    ∧ (pyStartsWith m.text "/activate" = false → pyStartsWith m.text "/deactivate" = true →
      handleUpdate admins env s m = ⟨s, [(m.chatId, deactivateDeniedMsg)], [], []⟩)
    ∧ (pyStartsWith m.text "/activate" = false → pyStartsWith m.text "/deactivate" = false →
      pyStartsWith m.text "/list_active" = true →
      handleUpdate admins env s m = ⟨s, [(m.chatId, listDeniedMsg)], [], []⟩) := by
  refine ⟨fun h1 => ?_, fun h1 h2 => ?_, fun h1 h2 h3 => ?_⟩
  · simp [handleUpdate, hc, hf, ht, hs1, h1]
  · simp [handleUpdate, hc, hf, ht, hs1, h1, h2]
  · simp [handleUpdate, hc, hf, ht, hs1, h1, h2, h3]

/-- Witness for `nonadmin_commands_denied`: non-admin 777 against admin set
containing only 1001, for each of the three commands. -/
theorem nonadmin_commands_denied_witness :
    (handleUpdate [1001] env0 ⟨[], []⟩ ⟨777, none, "/activate 555", false, none⟩
      = ⟨⟨[], []⟩, [(777, activateDeniedMsg)], [], []⟩)
    ∧ (handleUpdate [1001] env0 ⟨[], []⟩ ⟨777, none, "/deactivate 555", false, none⟩
      = ⟨⟨[], []⟩, [(777, deactivateDeniedMsg)], [], []⟩)
    ∧ (handleUpdate [1001] env0 ⟨[], []⟩ ⟨777, none, "/list_active", false, none⟩
      = ⟨⟨[], []⟩, [(777, listDeniedMsg)], [], []⟩) :=
  ⟨(nonadmin_commands_denied [1001] env0 ⟨[], []⟩ ⟨777, none, "/activate 555", false, none⟩
      (by decide) rfl rfl rfl).1 rfl,
   (nonadmin_commands_denied [1001] env0 ⟨[], []⟩ ⟨777, none, "/deactivate 555", false, none⟩
      (by decide) rfl rfl rfl).2.1 rfl rfl,
   (nonadmin_commands_denied [1001] env0 ⟨[], []⟩ ⟨777, none, "/list_active", false, none⟩
      (by decide) rfl rfl rfl).2.2 rfl rfl rfl⟩

/-- C9: `/analyze` from an inactive user yields exactly the gate message, no
dispatch, no persistence, and an unchanged state (in particular the stored
uploads are untouched). -/
theorem analyze_inactive_gate
    (admins : List Int) (env : Env) (s : BotState) (m : Msg)
    (ht : (m.text != "") = true)
    (hs1 : pyStartsWith (pyStrip m.text) "/start" = false)
    (hs2 : pyStartsWith m.text "/activate" = false)
    (hs3 : pyStartsWith m.text "/deactivate" = false)
    (hs4 : pyStartsWith m.text "/list_active" = false)
    (hs5 : pyStartsWith (pyStrip m.text) "/analyze" = true)
    (hin : m.chatId ∉ s.activeUsers) :
    handleUpdate admins env s m = ⟨s, [(m.chatId, inactiveMsg)], [], []⟩ := by
  simp [handleUpdate, ht, hs1, hs2, hs3, hs4, hs5, hin]

/-- Witness for `analyze_inactive_gate`: inactive user 888 with one stored
upload; the reply is the gate message and the upload stays. -/
theorem analyze_inactive_gate_witness :
    handleUpdate [1001] env0 ⟨[], [⟨888, 5, 5, [1]⟩]⟩ ⟨888, none, "/analyze", false, none⟩
      = ⟨⟨[], [⟨888, 5, 5, [1]⟩]⟩, [(888, inactiveMsg)], [], []⟩ :=
  analyze_inactive_gate [1001] env0 ⟨[], [⟨888, 5, 5, [1]⟩]⟩ ⟨888, none, "/analyze", false, none⟩
    rfl rfl rfl rfl rfl rfl (by decide)

/-- C10: an admin `/activate` whose argument does not parse as a Python int
leaves the set unchanged, persists nothing, and answers "Invalid chat id.";
an admin `/activate` without an argument answers the usage hint, likewise
without touching or persisting anything. -/
theorem activate_bad_argument
    (admins : List Int) (env : Env) (s : BotState) (m : Msg)
    (ht : (m.text != "") = true)
    (hs1 : pyStartsWith (pyStrip m.text) "/start" = false)
    (ha : pyStartsWith m.text "/activate" = true)
    (hadm : m.chatId ∈ admins) :
    (∀ p0, pySplit m.text = [p0] →
      handleUpdate admins env s m = ⟨s, [(m.chatId, usageActivateMsg)], [], []⟩)
    ∧ (∀ p0 w rest, pySplit m.text = p0 :: w :: rest → pyParseInt w = none →
      handleUpdate admins env s m = ⟨s, [(m.chatId, invalidChatIdMsg)], [], []⟩) := by
  constructor
  · intro p0 hsplit
    simp [handleUpdate, ht, hs1, ha, hadm, hsplit]
  · intro p0 w rest hsplit hw
    simp [handleUpdate, ht, hs1, ha, hadm, hsplit, hw]

/-- Witness for `activate_bad_argument`: admin 1001 issues `/activate` and
`/activate abc`. -/
theorem activate_bad_argument_witness :
    (handleUpdate [1001] env0 ⟨[], []⟩ ⟨1001, none, "/activate", false, none⟩
      = ⟨⟨[], []⟩, [(1001, usageActivateMsg)], [], []⟩)
    ∧ (handleUpdate [1001] env0 ⟨[], []⟩ ⟨1001, none, "/activate abc", false, none⟩
      = ⟨⟨[], []⟩, [(1001, invalidChatIdMsg)], [], []⟩) :=
  ⟨(activate_bad_argument [1001] env0 ⟨[], []⟩ ⟨1001, none, "/activate", false, none⟩
      rfl rfl rfl (by decide)).1 "/activate" rfl,
   (activate_bad_argument [1001] env0 ⟨[], []⟩ ⟨1001, none, "/activate abc", false, none⟩
      rfl rfl rfl (by decide)).2 "/activate" "abc" [] rfl rfl⟩

/-- C1 counterexample: the recorded state after an admin activation is the bare
id set `[555]` — no activation time and no expiry are recorded anywhere in the
process state — and the handler result is bit-for-bit identical whether the
duration argument is `7` or `999999`, so no `expiry = now + duration` exists and
`isActive` can never become false through days elapsing. -/
theorem c1_counterexample :
    (handleUpdate [1001] env0 ⟨[], []⟩ ⟨1001, none, "/activate 555 7", false, none⟩
      = handleUpdate [1001] env0 ⟨[], []⟩ ⟨1001, none, "/activate 555 999999", false, none⟩)
    ∧ (handleUpdate [1001] env0 ⟨[], []⟩ ⟨1001, none, "/activate 555 7", false, none⟩).state
      = ⟨[555], []⟩ :=
  ⟨rfl, rfl⟩

/-- C1 (amended): `isActive u` is false until an administrator issues
`/activate u`; activation only appends `u` to the active-users set (any further
arguments, e.g. a duration, are ignored and no time is recorded), after which
`isActive u` is true; it becomes false again after an administrator issues
`/deactivate u` — and only then, since no expiry exists. -/
theorem activation_lifecycle
    (admins : List Int) (env1 env2 : Env) (s : BotState) (ma md : Msg)
    (u : Int) (p0 w : String) (rest : List String) (q0 w2 : String) (rest2 : List String)
    (hu : u ∉ s.activeUsers)
    (hta : (ma.text != "") = true)
    (hsa : pyStartsWith (pyStrip ma.text) "/start" = false)
    (haa : pyStartsWith ma.text "/activate" = true)
    (hadma : ma.chatId ∈ admins)
    (hpa : pySplit ma.text = p0 :: w :: rest)
    (hwa : pyParseInt w = some u)
    (htd : (md.text != "") = true)
    (hsd : pyStartsWith (pyStrip md.text) "/start" = false)
    (had : pyStartsWith md.text "/activate" = false)
    (hdd : pyStartsWith md.text "/deactivate" = true)
    (hadmd : md.chatId ∈ admins)
    (hpd : pySplit md.text = q0 :: w2 :: rest2)
    (hwd : pyParseInt w2 = some u) :
    isActive s u = false
    ∧ (handleUpdate admins env1 s ma).state.activeUsers = s.activeUsers ++ [u]
    ∧ isActive (handleUpdate admins env1 s ma).state u = true
    ∧ isActive
        (handleUpdate admins env2 (handleUpdate admins env1 s ma).state md).state u = false := by
  refine ⟨?_, ?_, ?_, ?_⟩
  · simp [isActive, hu]
  · simp [handleUpdate, hta, hsa, haa, hadma, hpa, hwa, insertUser, hu]
  · simp [handleUpdate, isActive, hta, hsa, haa, hadma, hpa, hwa, insertUser, hu]
  · simp [handleUpdate, isActive, hta, hsa, haa, hadma, hpa, hwa, htd, hsd, had, hdd,
      hadmd, hpd, hwd, insertUser, discardUser, hu]

/-- Witness for `activation_lifecycle`: admin 1001 activates then deactivates 555. -/
theorem activation_lifecycle_witness :
    isActive ⟨[], []⟩ 555 = false
    ∧ (handleUpdate [1001] env0 ⟨[], []⟩
        ⟨1001, none, "/activate 555 7", false, none⟩).state.activeUsers = [] ++ [(555 : Int)]
    ∧ isActive (handleUpdate [1001] env0 ⟨[], []⟩
        ⟨1001, none, "/activate 555 7", false, none⟩).state 555 = true
    ∧ isActive (handleUpdate [1001] env0
        (handleUpdate [1001] env0 ⟨[], []⟩ ⟨1001, none, "/activate 555 7", false, none⟩).state
        ⟨1001, none, "/deactivate 555", false, none⟩).state 555 = false :=
  activation_lifecycle [1001] env0 env0 ⟨[], []⟩
    ⟨1001, none, "/activate 555 7", false, none⟩ ⟨1001, none, "/deactivate 555", false, none⟩
    555 "/activate" "555" ["7"] "/deactivate" "555" []
    (by decide) rfl rfl rfl (by decide) rfl rfl rfl rfl rfl rfl (by decide) rfl rfl

/-- C2 counterexample: an active user with two stored uploads issues `/analyze`;
exactly one dispatch happens (for the most recently modified file only) and the
stored uploads are left fully in place — the queue is neither drained in order
nor empty afterwards. -/
theorem c2_counterexample :
    (handleUpdate [] env0 ⟨[555], [⟨555, 100, 1, [1]⟩, ⟨555, 200, 2, [2]⟩]⟩
        ⟨555, none, "/analyze", false, none⟩).dispatches
      = [(555, filePath ⟨555, 200, 2, [2]⟩)]
    ∧ (handleUpdate [] env0 ⟨[555], [⟨555, 100, 1, [1]⟩, ⟨555, 200, 2, [2]⟩]⟩
        ⟨555, none, "/analyze", false, none⟩).state.files
      = [⟨555, 100, 1, [1]⟩, ⟨555, 200, 2, [2]⟩] :=
  ⟨rfl, rfl⟩

/-- C2 (amended): `/analyze` from an active user with at least one stored upload
dispatches exactly one analysis — of the most recently modified stored image —
sends one processing message, and leaves the stored uploads (and all other
state) unchanged; earlier pending uploads are neither dispatched nor removed. -/
theorem analyze_dispatches_latest
    (admins : List Int) (env : Env) (s : BotState) (m : Msg) (f : FileRec)
    (ht : (m.text != "") = true)
    (hs1 : pyStartsWith (pyStrip m.text) "/start" = false)
    (hs2 : pyStartsWith m.text "/activate" = false)
    (hs3 : pyStartsWith m.text "/deactivate" = false)
    (hs4 : pyStartsWith m.text "/list_active" = false)
    (hs5 : pyStartsWith (pyStrip m.text) "/analyze" = true)
    (hact : m.chatId ∈ s.activeUsers)
    (hlat : latestFile (s.files.filter (fun g => g.chatId == m.chatId)) = some f) :
    handleUpdate admins env s m
      = ⟨s, [(m.chatId, processingMsg)], [(m.chatId, filePath f)], []⟩ := by
  simp [handleUpdate, ht, hs1, hs2, hs3, hs4, hs5, hact, hlat]

/-- Witness for `analyze_dispatches_latest`: active user 555 with one upload. -/
theorem analyze_dispatches_latest_witness :
    handleUpdate [1001] env0 ⟨[555], [⟨555, 100, 7, [1]⟩]⟩ ⟨555, none, "/analyze", false, none⟩
      = ⟨⟨[555], [⟨555, 100, 7, [1]⟩]⟩, [(555, processingMsg)],
         [(555, filePath ⟨555, 100, 7, [1]⟩)], []⟩ :=
  analyze_dispatches_latest [1001] env0 ⟨[555], [⟨555, 100, 7, [1]⟩]⟩
    ⟨555, none, "/analyze", false, none⟩ ⟨555, 100, 7, [1]⟩
    rfl rfl rfl rfl rfl rfl (by decide) rfl

/-- Writing a file twice under the same name keeps only the second content. -/
theorem putFile_overwrite (files : List FileRec) (f g : FileRec)
    (hc : g.chatId = f.chatId) (hts : g.tsSec = f.tsSec) :
    putFile (putFile files g) f = putFile files f := by
  unfold putFile
  simp [List.filter_append, List.filter_filter, hc, hts]

/-- The file just written is present in the store. -/
theorem mem_putFile_self (files : List FileRec) (f : FileRec) : f ∈ putFile files f := by
  simp [putFile]

/-- Writing under a different second-timestamp keeps an existing file. -/
theorem mem_putFile_of_ts_ne (files : List FileRec) (f g : FileRec)
    (hts : g.tsSec ≠ f.tsSec) (hg : g ∈ files) : g ∈ putFile files f := by
  simp [putFile, List.mem_filter, hg, hts]

/-- C6 counterexample: a successful photo receive from active user 555 queues
two acknowledgement messages, not exactly one. -/
theorem c6_counterexample :
    (handleUpdate [] ⟨1000500, 1, some "p", [7], DownloadOutcome.ok⟩ ⟨[555], []⟩
        ⟨555, none, "", true, none⟩).msgs
      = [(555, savedMsg), (555, savedProcessingMsg)]
    ∧ (handleUpdate [] ⟨1000500, 1, some "p", [7], DownloadOutcome.ok⟩ ⟨[555], []⟩
        ⟨555, none, "", true, none⟩).msgs.length = 2 :=
  ⟨rfl, rfl⟩

/-- C6 (amended): a successful photo receive stores the file and queues exactly
two acknowledgement messages ("saved" then "processing"); for an inactive
uploader a third inactivity notice follows and no analysis is dispatched, while
for an active uploader the analysis of the new file is dispatched immediately. -/
theorem photo_receive_acks
    (admins : List Int) (env : Env) (s : BotState) (m : Msg) (fp : String)
    (ht : m.text = "")
    (hp : m.photo = true)
    (hfp : env.getFilePath = some fp)
    (hok : env.outcome = DownloadOutcome.ok) :
    (m.chatId ∈ s.activeUsers →
      handleUpdate admins env s m
        = ⟨⟨s.activeUsers, putFile s.files ⟨m.chatId, env.nowMs / 1000, env.mtime, env.chunks⟩⟩,
           [(m.chatId, savedMsg), (m.chatId, savedProcessingMsg)],
           [(m.chatId, filePath ⟨m.chatId, env.nowMs / 1000, env.mtime, env.chunks⟩)], []⟩)
    ∧ (m.chatId ∉ s.activeUsers →
      handleUpdate admins env s m
        = ⟨⟨s.activeUsers, putFile s.files ⟨m.chatId, env.nowMs / 1000, env.mtime, env.chunks⟩⟩,
           [(m.chatId, savedMsg), (m.chatId, savedProcessingMsg), (m.chatId, savedInactiveMsg)],
           [], []⟩) := by
  refine ⟨fun hA => ?_, fun hA => ?_⟩
  · simp [handleUpdate, ht, hp, hfp, hok, hA]
  · simp [handleUpdate, ht, hp, hfp, hok, hA]

/-- Witness for `photo_receive_acks`: one active (555) and one inactive (777)
uploader. -/
theorem photo_receive_acks_witness :
    (handleUpdate [] ⟨1000500, 1, some "p", [7], DownloadOutcome.ok⟩ ⟨[555], []⟩
        ⟨555, none, "", true, none⟩
      = ⟨⟨[555], putFile [] ⟨555, 1000, 1, [7]⟩⟩,
         [(555, savedMsg), (555, savedProcessingMsg)],
         [(555, filePath ⟨555, 1000, 1, [7]⟩)], []⟩)
    ∧ (handleUpdate [] ⟨1000500, 1, some "p", [7], DownloadOutcome.ok⟩ ⟨[], []⟩
        ⟨777, none, "", true, none⟩
      = ⟨⟨[], putFile [] ⟨777, 1000, 1, [7]⟩⟩,
         [(777, savedMsg), (777, savedProcessingMsg), (777, savedInactiveMsg)],
         [], []⟩) :=
  ⟨(photo_receive_acks [] ⟨1000500, 1, some "p", [7], DownloadOutcome.ok⟩ ⟨[555], []⟩
      ⟨555, none, "", true, none⟩ "p" rfl rfl rfl rfl).1 (by decide),
   (photo_receive_acks [] ⟨1000500, 1, some "p", [7], DownloadOutcome.ok⟩ ⟨[], []⟩
      ⟨777, none, "", true, none⟩ "p" rfl rfl rfl rfl).2 (by decide)⟩

/-- C7 counterexample: a store write that fails after one of two chunks
(writeFails 1) still surfaces the generic failure message, but a partially
written file is left behind — the stored-uploads queue is mutated from `[]` to
one partial entry, which the next `/analyze` would pick up. -/
theorem c7_counterexample :
    handleUpdate [] ⟨1000500, 1, some "p", [10, 20], DownloadOutcome.writeFails 1⟩ ⟨[], []⟩
        ⟨777, none, "", true, none⟩
      = ⟨⟨[], [⟨777, 1000, 1, [10]⟩]⟩, [(777, downloadFailMsg)], [], []⟩
    ∧ ¬((handleUpdate [] ⟨1000500, 1, some "p", [10, 20], DownloadOutcome.writeFails 1⟩ ⟨[], []⟩
        ⟨777, none, "", true, none⟩).state.files = []) :=
  ⟨rfl, by decide⟩

/-- C7 (amended): when the photo download fails before the target file is opened
the user receives the generic failure message and no state changes at all; when
a chunk write fails after the file was opened the user still receives only the
generic failure message and no dispatch occurs, but a partially written file
(the prefix of chunks written so far) is left in the store under the new name. -/
theorem storage_failure_behavior
    (admins : List Int) (env : Env) (s : BotState) (m : Msg) (fp : String)
    (ht : m.text = "")
    (hp : m.photo = true)
    (hfp : env.getFilePath = some fp) :
    (env.outcome = DownloadOutcome.failsBeforeWrite →
      handleUpdate admins env s m = ⟨s, [(m.chatId, downloadFailMsg)], [], []⟩)
    ∧ (∀ k, env.outcome = DownloadOutcome.writeFails k →
      handleUpdate admins env s m
        = ⟨⟨s.activeUsers, putFile s.files ⟨m.chatId, env.nowMs / 1000, env.mtime, env.chunks.take k⟩⟩,
           [(m.chatId, downloadFailMsg)], [], []⟩) := by
  refine ⟨fun ho => ?_, fun k ho => ?_⟩
  · simp [handleUpdate, ht, hp, hfp, ho]
  · simp [handleUpdate, ht, hp, hfp, ho]

/-- Witness for `storage_failure_behavior`: a failure before the write and a
failure after one of two chunks. -/
theorem storage_failure_behavior_witness :
    (handleUpdate [] ⟨1000500, 1, some "p", [10, 20], DownloadOutcome.failsBeforeWrite⟩ ⟨[], []⟩
        ⟨777, none, "", true, none⟩
      = ⟨⟨[], []⟩, [(777, downloadFailMsg)], [], []⟩)
    ∧ (handleUpdate [] ⟨1000500, 1, some "p", [10, 20], DownloadOutcome.writeFails 1⟩ ⟨[], []⟩
        ⟨777, none, "", true, none⟩
      = ⟨⟨[], putFile [] ⟨777, 1000, 1, [10]⟩⟩, [(777, downloadFailMsg)], [], []⟩) :=
  ⟨(storage_failure_behavior [] ⟨1000500, 1, some "p", [10, 20], DownloadOutcome.failsBeforeWrite⟩
      ⟨[], []⟩ ⟨777, none, "", true, none⟩ "p" rfl rfl rfl).1 rfl,
   (storage_failure_behavior [] ⟨1000500, 1, some "p", [10, 20], DownloadOutcome.writeFails 1⟩
      ⟨[], []⟩ ⟨777, none, "", true, none⟩ "p" rfl rfl rfl).2 1 rfl⟩

/-- C8 counterexample: two uploads by user 555 at distinct real times 1000.2s
and 1000.7s — i.e. rapid uploads within the same whole second — produce the
same stored name (`int(time.time())` has second granularity), so the second
overwrites the first and only one file remains. -/
theorem c8_counterexample :
    (handleUpdate [] ⟨1000700, 2, some "p", [9], DownloadOutcome.ok⟩
        (handleUpdate [] ⟨1000200, 1, some "p", [8], DownloadOutcome.ok⟩ ⟨[], []⟩
          ⟨555, none, "", true, none⟩).state
        ⟨555, none, "", true, none⟩).state.files
      = [⟨555, 1000, 2, [9]⟩]
    ∧ filePath ⟨555, 1000, 1, [8]⟩ = filePath ⟨555, 1000, 2, [9]⟩ :=
  ⟨rfl, rfl⟩

/-- C8 (amended): stored names derive from the user id and the whole-second
timestamp only; two successful uploads by the same user falling in the same
whole second collide — the later write overwrites the earlier file — while
uploads in distinct seconds are kept as distinct files. -/
theorem same_second_upload_collides
    (admins : List Int) (e1 e2 : Env) (s : BotState) (m : Msg) (fp1 fp2 : String)
    (ht : m.text = "") (hp : m.photo = true)
    (h1 : e1.getFilePath = some fp1) (h2 : e2.getFilePath = some fp2)
    (ho1 : e1.outcome = DownloadOutcome.ok) (ho2 : e2.outcome = DownloadOutcome.ok) :
    (e1.nowMs / 1000 = e2.nowMs / 1000 →
      (handleUpdate admins e2 (handleUpdate admins e1 s m).state m).state.files
        = putFile s.files ⟨m.chatId, e2.nowMs / 1000, e2.mtime, e2.chunks⟩)
    ∧ (e1.nowMs / 1000 ≠ e2.nowMs / 1000 →
      (⟨m.chatId, e1.nowMs / 1000, e1.mtime, e1.chunks⟩ : FileRec)
          ∈ (handleUpdate admins e2 (handleUpdate admins e1 s m).state m).state.files
        ∧ (⟨m.chatId, e2.nowMs / 1000, e2.mtime, e2.chunks⟩ : FileRec)
          ∈ (handleUpdate admins e2 (handleUpdate admins e1 s m).state m).state.files) := by
  have key : (handleUpdate admins e2 (handleUpdate admins e1 s m).state m).state.files
      = putFile (putFile s.files ⟨m.chatId, e1.nowMs / 1000, e1.mtime, e1.chunks⟩)
          ⟨m.chatId, e2.nowMs / 1000, e2.mtime, e2.chunks⟩ := by
    by_cases hA : m.chatId ∈ s.activeUsers
    · simp [handleUpdate, ht, hp, h1, h2, ho1, ho2, hA]
    · simp [handleUpdate, ht, hp, h1, h2, ho1, ho2, hA]
  refine ⟨fun hsec => ?_, fun hsec => ?_⟩
  · rw [key]
    exact putFile_overwrite _ _ _ rfl hsec
  · rw [key]
    exact ⟨mem_putFile_of_ts_ne _ _ _ hsec (mem_putFile_self _ _), mem_putFile_self _ _⟩

/-- Witness for `same_second_upload_collides`: the same two rapid uploads as in
the counterexample, via the general theorem. -/
theorem same_second_upload_collides_witness :
    (handleUpdate [] ⟨1000700, 2, some "p", [9], DownloadOutcome.ok⟩
        (handleUpdate [] ⟨1000200, 1, some "p", [8], DownloadOutcome.ok⟩ ⟨[], []⟩
          ⟨555, none, "", true, none⟩).state
        ⟨555, none, "", true, none⟩).state.files
      = putFile [] ⟨555, 1000, 2, [9]⟩ :=
  (same_second_upload_collides [] ⟨1000200, 1, some "p", [8], DownloadOutcome.ok⟩
      ⟨1000700, 2, some "p", [9], DownloadOutcome.ok⟩ ⟨[], []⟩ ⟨555, none, "", true, none⟩
      "p" "p" rfl rfl rfl rfl rfl rfl).1 rfl

/-- C3 counterexample: on provider failure the user receives the fixed failure
text `azureFailMsg`, which does not contain the word "simulated" — the fallback
report is not labeled "simulated" as claimed. -/
theorem c3_counterexample :
    analyze_image_worker 555 "images/555_100.jpg" AzureCall.netFail
      = [(555, Json.str azureFailMsg)]
    ∧ occursIn "simulated".toList azureFailMsg.toList = false :=
  ⟨rfl, rfl⟩

/-- C3 (amended): the response parser takes `choices[0].message.content` when
present, else `choices[0]["text"]`, and a body with no `"choices"` member falls
back to the full raw serialization `str(j)` — untruncated, with no bounded
preview length; on provider failure (network error, bad status, unparseable
body) the user receives the fixed failure message, which is not labeled
"simulated". -/
theorem provider_response_shapes
    (c t : String) (restc restt : List Json) (j : Json)
    (hj : pyContains "choices" j = Except.ok false) :
    azure_chat_completion (AzureCall.ok (Json.obj [("choices",
        Json.arr (Json.obj [("message", Json.obj [("content", Json.str c)])] :: restc))]))
      = some (Json.str c)
    ∧ azure_chat_completion (AzureCall.ok (Json.obj [("choices",
        Json.arr (Json.obj [("text", Json.str t)] :: restt))]))
      = some (Json.str t)
    ∧ azure_chat_completion (AzureCall.ok j) = some (Json.str (pyStr j))
    ∧ analyze_image_worker 555 "images/x.jpg" AzureCall.netFail = [(555, Json.str azureFailMsg)]
    ∧ occursIn "simulated".toList azureFailMsg.toList = false := by
  refine ⟨?_, ?_, ?_, rfl, rfl⟩
  · simp [azure_chat_completion, azureExtractText, pyContains, pyIndexKey, pyLen,
      pyIndexZero, pyGet, Bind.bind, Except.bind, Pure.pure, Except.pure]
  · simp [azure_chat_completion, azureExtractText, pyContains, pyIndexKey, pyLen,
      pyIndexZero, pyGet, Bind.bind, Except.bind, Pure.pure, Except.pure]
  · simp [azure_chat_completion, azureExtractText, hj, Bind.bind, Except.bind,
      Pure.pure, Except.pure]

/-- Witness for `provider_response_shapes`: concrete payloads "hi" and "frag",
and the shape-probe-free body `{"id": 1}` (no "choices" member). -/
theorem provider_response_shapes_witness :
    azure_chat_completion (AzureCall.ok (Json.obj [("choices",
        Json.arr [Json.obj [("message", Json.obj [("content", Json.str "hi")])]])]))
      = some (Json.str "hi")
    ∧ azure_chat_completion (AzureCall.ok (Json.obj [("choices",
        Json.arr [Json.obj [("text", Json.str "frag")]])]))
      = some (Json.str "frag")
    ∧ azure_chat_completion (AzureCall.ok (Json.obj [("id", Json.num 1)]))
      = some (Json.str (pyStr (Json.obj [("id", Json.num 1)])))
    ∧ analyze_image_worker 555 "images/x.jpg" AzureCall.netFail = [(555, Json.str azureFailMsg)]
    ∧ occursIn "simulated".toList azureFailMsg.toList = false := by
  have h := provider_response_shapes "hi" "frag" [] [] (Json.obj [("id", Json.num 1)]) rfl
  exact ⟨h.1, h.2.1, h.2.2.1, h.2.2.2.1, h.2.2.2.2⟩
